import Mathlib

/-!
Shallow embedding of the Wiki-Cyberpank2077 backend (FastAPI + Redis/file
cache) and proofs about its retrieval orchestrator, tiered cache, refresh
job and search components.

Source files embedded:
* `src/backend/src/core/config.py` — `Settings` (fixed category set, TTLs,
  search minimum).
* `src/backend/src/app/redis/redis_cache.py` — class `RedisCache`: a
  two-tier (Redis + on-disk pickle file) key/value cache with TTL handling,
  plus the typed getters (`get_category_data`, `get_item_data`,
  `get_all_categories`, `get_search_results`) that normalise an absent
  entry to an empty container.
* `src/backend/src/api/v1/wiki/router.py` — the wiki route handlers:
  `scrape_category_async` (background refresh job `_scrape`),
  `get_category_items` (category retrieval with disk fallback, 202 pending
  and pagination), `get_item_details` (per-item cache, category scan with
  promotion), and the `/search` query validation and cache-key
  normalisation from `search_in_cache`.

Machine integers are modelled as `Nat` (no wrap-around is reachable in the
embedded fragments: times and TTLs only grow by addition).  Cached values
are opaque (`pickle` payloads), so stores are value-polymorphic.  Time is
an explicit `now : Nat` parameter (seconds); I/O failure of a tier is an
explicit boolean parameter standing for the corresponding
`try/except` outcome.
-/

/-! ### Configuration (`src/core/config.py`, class `Settings`) -/

/-- `Settings.SEARCH_MIN_QUERY_LENGTH` (config.py line 52), default 3. -/
def SEARCH_MIN_QUERY_LENGTH : Nat := 3

/-- `Settings.REDIS_TTL` (config.py line 40), default 3600 seconds. -/
def REDIS_TTL : Nat := 3600

/-- `Settings.CATEGORIES` (config.py lines 60-67): the fixed category
key set, in insertion order.  `wiki_scraper.CATEGORIES` is this very
mapping (`CATEGORIES = settings.CATEGORIES`). -/
def CATEGORIES : List (String × String) :=
  [("characters", "Cyberpunk 2077 Characters"),
   ("vehicles", "Cyberpunk 2077 Vehicles"),
   ("weapons", "Weapons in Cyberpunk 2077"),
   ("locations", "Cyberpunk 2077 Locations"),
   ("perks", "Perks in Cyberpunk 2077"),
   ("items", "Items in Cyberpunk 2077")]

/-! ### Tiered cache (`src/app/redis/redis_cache.py`, class `RedisCache`)

The Redis tier holds `(value, expireAt?)` per key (`setex` gives an
absolute expiry `now + ttl`; a plain `set` has none).  The file tier holds
`(value, mtime)` per key; its TTL check in `get` compares the file age
against the *instance* TTL `self.ttl` (`settings.REDIS_TTL`), not against
any per-entry TTL.  `use_redis` is `self.use_redis`
(`settings.USE_REDIS_CACHE`, and demoted on connection errors); `ttl` is
`self.ttl`. -/

structure RedisCache (α : Type) where
  redisStore : String → Option (α × Option Nat)
  fileStore : String → Option (α × Nat)
  use_redis : Bool
  ttl : Nat

/-- `RedisCache.get` (redis_cache.py lines 81-108).  `redis_ok` is the
outcome of the Redis round-trip `try:` block (a raised exception means the
fast tier contributes nothing).  Returns the value found (if any) together
with the possibly-updated cache state: discovering an expired file-tier
entry unlinks it (`file_path.unlink`, line 100). -/
def RedisCache.get {α : Type} (c : RedisCache α) (key : String) (now : Nat)
    (redis_ok : Bool) : Option α × RedisCache α :=
  let fromRedis : Option α :=
    if c.use_redis && redis_ok then
      match c.redisStore key with
      | some (v, none) => some v
      | some (v, some e) => if now < e then some v else none
      | none => none
    else none
  match fromRedis with
  | some v => (some v, c)
  | none =>
    match c.fileStore key with
    | none => (none, c)
    | some (v, mtime) =>
      if c.ttl > 0 && decide (now - mtime > c.ttl) then
        (none, { c with fileStore := fun k => if k = key then none else c.fileStore k })
      else
        (some v, c)

/-- `RedisCache.set` (redis_cache.py lines 110-137).  `ttl = none` models
the Python default `ttl=None` (replaced by `self.ttl`); `redis_ok` /
`file_ok` are the outcomes of the two `try:` blocks.  The success flag
starts `False`, becomes `True` on a successful Redis `setex`/`set`, and the
file write is attempted unconditionally afterwards, setting the flag on
its own success. -/
def RedisCache.set {α : Type} (c : RedisCache α) (key : String) (value : α)
    (ttl : Option Nat) (now : Nat) (redis_ok file_ok : Bool) :
    RedisCache α × Bool :=
  let t := ttl.getD c.ttl
  let afterRedis : RedisCache α × Bool :=
    if c.use_redis && redis_ok then
      ({ c with redisStore := fun k =>
          if k = key then some (value, if t > 0 then some (now + t) else none)
          else c.redisStore k }, true)
    else (c, false)
  if file_ok then
    ({ afterRedis.1 with fileStore := fun k =>
        if k = key then some (value, now) else afterRedis.1.fileStore k }, true)
  else afterRedis

/-! ### Typed cache getters (redis_cache.py lines 185-216)

Each getter wraps `self.get(key)` in `... or <empty>`, so an absent entry
and a cached empty container are returned identically.  Below, `raw`
stands for the underlying two-tier `RedisCache.get` result on the given
key (`none` = miss on both tiers).  A cached category snapshot / item
record is its `title -> record` mapping, embedded as an insertion-ordered
association list with opaque record values. -/

/-- `RedisCache.get_category_data` (lines 197-199):
`self.get(f"category:\x7bcategory\x7d") or []`. -/
def get_category_data {α : Type} (raw : String → Option (List (String × α)))
    (category : String) : List (String × α) :=
  (raw ("category:" ++ category)).getD []

/-- `RedisCache.get_item_data` (lines 205-207):
`self.get(f"item:\x7bcategory\x7d:\x7bitem_id\x7d") or \x7b\x7d`. -/
def get_item_data {α : Type} (raw : String → Option (List (String × α)))
    (category item_id : String) : List (String × α) :=
  (raw ("item:" ++ category ++ ":" ++ item_id)).getD []

/-- `RedisCache.get_all_categories` (lines 189-191):
`self.get("all_categories") or \x7b\x7d`. -/
def get_all_categories (raw : String → Option (List String)) : List String :=
  (raw "all_categories").getD []

/-- `RedisCache.get_search_results` (lines 214-216):
`self.get(f"search:\x7bquery\x7d") or []`. -/
def get_search_results {α : Type} (raw : String → Option (List α))
    (query : String) : List α :=
  (raw ("search:" ++ query)).getD []

/-! ### Background refresh job (router.py lines 81-127)

`scrape_category_async` only does `background_tasks.add_task(_scrape)`:
the `BackgroundTasks` queue is embedded as the list of category names
whose `_scrape` closures have been queued; each queued closure invokes the
scraping collaborator `scrape_category` exactly once for its category when
the queue is run. -/

/-- `scrape_category_async` (router.py lines 81-127): unconditionally
appends a new `_scrape` task for `category_name` to the background queue
and returns; no in-flight bookkeeping is consulted or recorded. -/
def scrape_category_async (category_name : String)
    (background_tasks : List String) : List String :=
  background_tasks ++ [category_name]

/-- Number of `scrape_category` executions for `category` once the queued
background tasks run (each queued `_scrape` closure calls
`scrape_category(category_name)` once, router.py line 86). -/
def scrape_executions (tasks : List String) (category : String) : Nat :=
  tasks.countP (fun t => t == category)

/-- `n` successive calls of `scrape_category_async category` starting from
an empty background queue. -/
def refresh_calls (category : String) : Nat → List String
  | 0 => []
  | n + 1 => scrape_category_async category (refresh_calls category n)

/-- Outcome of `scrape_category(category_name)` (router.py line 86):
either the scraped `title -> record` mapping (possibly empty), or a raised
exception. -/
inductive ScrapeOutcome (α : Type) where
  | ok (result : List (String × α))
  | error

/-- The stores the `_scrape` body writes for one category: the cached
snapshot (`category:...` entry), the per-item cache entries, the durable
full-snapshot file `DATA_DIR/<category>.json`, and the per-item files in
`DATA_DIR/<category>/`.  (The cache adapter used for the item writes is
the one named by the router; it is keyed by the item title.) -/
structure RefreshStores (α : Type) where
  cacheCat : Option (List (String × α))
  cacheItem : String → Option α
  diskCat : Option (List (String × α))
  diskItem : String → Option α

/-- One keyed write per `(title, record)` pair, in iteration order. -/
def write_items {α : Type} (store : String → Option α)
    (items : List (String × α)) : String → Option α :=
  items.foldl (fun s p => fun k => if k = p.1 then some p.2 else s k) store

/-- The `_scrape` closure body (router.py lines 83-123) for one category.
On a raised scrape exception the outer `except` (line 122) logs and leaves
every store untouched.  On a result, the cache writes (snapshot entry and
per-item entries, lines 89-94) happen only under `if result:`; the durable
writes (lines 100-120) run unconditionally afterwards: the full snapshot
file receives `json.dump(result, ...)` even when `result` is empty, while
the per-item file loop writes one file per scraped item (none for an empty
result).  Disk I/O errors are absorbed by the inner `except`; this model
takes the I/O-success path. -/
def run_scrape {α : Type} (outcome : ScrapeOutcome α) (st : RefreshStores α) :
    RefreshStores α :=
  match outcome with
  | .error => st
  | .ok result =>
    let st1 :=
      if result.isEmpty then st
      else { st with
              cacheCat := some result,
              cacheItem := write_items st.cacheItem result }
    { st1 with
        diskCat := some result,
        diskItem := write_items st1.diskItem result }

/-! ### Category retrieval (router.py lines 161-240, `get_category_items`)

The handler's observable result, together with the trace of collaborator
effects it performed (cache read, background scrape scheduling, durable
disk read), in order.  `WikiEnv.cache` is the tiered-cache read
(`redis.get_category_data`'s underlying `get`); `WikiEnv.disk` is the
parsed content of `DATA_DIR/<category>.json` (`none` covers a missing
file and a `json.load` error alike). -/

structure WikiEnv (α : Type) where
  cache : String → Option (List (String × α))
  disk : String → Option (List (String × α))

inductive CacheEffect where
  | cacheRead (key : String)
  | scheduleScrape (category : String)
  | diskRead (category : String)
deriving DecidableEq

/-- HTTP-visible outcome of `get_category_items`: 404 for an unknown
category, 202 while data is being prepared, or a `CategoryResult` page
(`category`, `total`, paginated `items`). -/
inductive CatResult (α : Type) where
  | notFound
  | pending
  | page (category : String) (total : Nat) (items : List α)
deriving DecidableEq

/-- Pagination step of `get_category_items` (router.py lines 212-239):
`items_list = list(category_data.values())`, `total = len(items_list)`,
empty page when `offset >= total`, else the slice
`items_list[offset:offset + limit]`.  (The per-item `WikiItem(**item)`
re-validation is the identity on the well-formed records modelled here.) -/
def paginate {α : Type} (category_name : String)
    (category_data : List (String × α)) (limit offset : Nat) : CatResult α :=
  let items_list := category_data.map Prod.snd
  let total_items := items_list.length
  if offset ≥ total_items then .page category_name total_items []
  else .page category_name total_items ((items_list.drop offset).take limit)

/-- `get_category_items` (router.py lines 161-240).  Unknown category:
immediate 404 (line 172), before any cache, disk or scraper interaction.
Otherwise: read the cached snapshot unless `refresh` was forced; when the
(possibly empty, hence falsy) snapshot or the forced refresh demands it,
schedule the background scrape, fall back to the durable snapshot file if
the cache gave nothing, and answer 202 if both sources are empty;
otherwise paginate whichever item set was resolved. -/
def get_category_items {α : Type} (env : WikiEnv α) (category_name : String)
    (limit offset : Nat) (refresh : Bool) : CatResult α × List CacheEffect :=
  if ¬ (CATEGORIES.map Prod.fst).contains category_name then (.notFound, [])
  else
    let need_refresh := refresh
    let category_data :=
      if need_refresh then [] else get_category_data env.cache category_name
    let eff0 : List CacheEffect :=
      if need_refresh then []
      else [.cacheRead ("category:" ++ category_name)]
    if category_data.isEmpty || need_refresh then
      let eff1 := eff0 ++ [.scheduleScrape category_name]
      if category_data.isEmpty then
        let eff2 := eff1 ++ [.diskRead category_name]
        let diskData := (env.disk category_name).getD []
        if diskData.isEmpty then (.pending, eff2)
        else (paginate category_name diskData limit offset, eff2)
      else (paginate category_name category_data limit offset, eff1)
    else (paginate category_name category_data limit offset, eff0)

/-! ### Item retrieval (router.py lines 242-294, `get_item_details`) -/

/-- The category scan of `get_item_details` (router.py lines 253-261):
iterate `CATEGORIES` in configuration order; for the first category whose
cached snapshot is non-empty and contains `item_title`, take that record
(`break`); otherwise continue. -/
def scan_categories {α : Type} (cache : String → Option (List (String × α)))
    (item_title : String) : List (String × String) → Option α
  | [] => none
  | (cat_key, _) :: rest =>
    let category_data := get_category_data cache cat_key
    if category_data.isEmpty then scan_categories cache item_title rest
    else
      match category_data.lookup item_title with
      | some r => some r
      | none => scan_categories cache item_title rest

/-- `get_item_details` (router.py lines 242-294), returning the resolved
record (`none` = 404) and the list of per-item cache writes performed.
`itemCache` models the per-item cache lookup `redis.get_item_data(title)`
(`none` covers absent and cached-empty alike, both falsy).  Modelled from
the spec: the cache adapter produced by `get_redis_sync` is not under
`src/`; per the spec, an `ItemRecord` is "individually cacheable under an
item key derived from its title", so the adapter is embedded as a
title-keyed store, exactly as the router calls it.  `fetch` is
`get_page_metadata` (`none` = exception or empty result); its additional
per-category disk-file writes (lines 272-281) are outside the stores
modelled here. -/
def get_item_details {α : Type} (itemCache : String → Option α)
    (cache : String → Option (List (String × α)))
    (fetch : String → Option α) (item_title : String) :
    Option α × List (String × α) :=
  match itemCache item_title with
  | some r => (some r, [])
  | none =>
    match scan_categories cache item_title CATEGORIES with
    | some r => (some r, [(item_title, r)])
    | none =>
      match fetch item_title with
      | some r => (some r, [(item_title, r)])
      | none => (none, [])

/-! ### Search (router.py lines 296-366) -/

/-- Python `str.strip()`: remove leading and trailing whitespace.
(Embedded over the character list so that the kernel can evaluate it;
`String.trim` agrees but does not reduce definitionally.) -/
def pyStrip (s : String) : String :=
  ⟨((s.data.dropWhile Char.isWhitespace).reverse.dropWhile
      Char.isWhitespace).reverse⟩

/-- Python `str.lower()`: per-character lowercasing. -/
def pyLower (s : String) : String :=
  ⟨s.data.map Char.toLower⟩

/-- Query validation of `search_items` (router.py line 365):
`if not q or len(q.strip()) < 2: raise HTTPException(400, ...)`.
The bound is the literal `2`; `settings.SEARCH_MIN_QUERY_LENGTH` is not
consulted by this endpoint. -/
def search_query_rejected (q : String) : Bool :=
  q.length == 0 || decide ((pyStrip q).length < 2)

/-- Query normalisation of `search_in_cache` (router.py line 302):
`normalized_query = query.lower().strip()`. -/
def normalized_query (query : String) : String :=
  pyStrip (pyLower query)

/-- Search cache key construction of `RedisCache.set_search_results` /
`get_search_results` (redis_cache.py lines 209-216):
`f"search:\x7bquery\x7d"`. -/
def search_results_key (query : String) : String :=
  "search:" ++ query

/-- The cache key under which `search_in_cache` reads and writes the
result set for a raw query: key of the normalised query (router.py lines
302, 305, 352). -/
def search_cache_key (query : String) : String :=
  search_results_key (normalized_query query)

/-! ### Claims -/

/-- C1, counterexample: calling `refresh("characters")` twice while the
first task is still queued (non-terminal) executes the scraping
collaborator twice, not once — `scrape_category_async` performs no
in-flight de-duplication. -/
theorem c1_counterexample :
    scrape_executions
        (scrape_category_async "characters"
          (scrape_category_async "characters" [])) "characters" = 2
      ∧ (2 : Nat) ≠ 1 := by
  decide

/-- C1, amended: every call to `refresh(categoryKey)` unconditionally
queues a fresh scrape task, so `n` calls for the same category key execute
the scraping collaborator exactly `n` times; there is no at-most-one
in-flight invariant. -/
theorem c1_refresh_executes_once_per_call (category : String) (n : Nat) :
    scrape_executions (refresh_calls category n) category = n := by
  induction n with
  | zero => rfl
  | succ n ih =>
    simp only [refresh_calls, scrape_category_async, scrape_executions,
      List.countP_append] at *
    simp [ih, List.countP_cons]

/-- Stores holding a previously scraped non-empty snapshot for one
category, in cache and on disk. -/
def c2_store : RefreshStores Nat :=
  ⟨some [("V", 1)], fun _ => none, some [("V", 1)], fun _ => none⟩

/-- C2, counterexample: a refresh run whose scrape returns the empty
result overwrites the previously non-empty durable on-disk snapshot with
the empty one (`json.dump(result, ...)` runs outside the `if result:`
guard), so the durable store is not left as it was. -/
theorem c2_counterexample :
    (run_scrape (.ok []) c2_store).diskCat = some []
      ∧ c2_store.diskCat = some [("V", 1)]
      ∧ (run_scrape (.ok []) c2_store).diskCat ≠ c2_store.diskCat := by
  refine ⟨rfl, rfl, ?_⟩
  decide

/-- C2, amended: a failed (exception-raising) scrape leaves every store
untouched; an empty scrape result leaves the cached snapshot, the per-item
cache entries and the per-item durable files untouched, but overwrites the
full durable on-disk snapshot file with the empty result. -/
theorem c2_empty_result_effects (α : Type) (st : RefreshStores α) :
    run_scrape ScrapeOutcome.error st = st
      ∧ (run_scrape (.ok []) st).cacheCat = st.cacheCat
      ∧ (run_scrape (.ok []) st).cacheItem = st.cacheItem
      ∧ (run_scrape (.ok []) st).diskItem = st.diskItem
      ∧ (run_scrape (.ok []) st).diskCat = some [] := by
  refine ⟨rfl, ?_, ?_, ?_, ?_⟩ <;> simp [run_scrape, write_items]

/-- C4: `RedisCache.set` reports failure exactly when the write succeeded
on neither tier — the fast-tier attempt fails (Redis disabled or the
`setex` raised) and the durable file write fails too; in particular a
fast-tier failure with a successful durable write still reports success. -/
theorem c4_set_fails_iff_both_tiers_fail (α : Type) (c : RedisCache α)
    (key : String) (value : α) (ttl : Option Nat) (now : Nat)
    (redis_ok file_ok : Bool) :
    ((c.set key value ttl now redis_ok file_ok).2 = false
        ↔ ((c.use_redis && redis_ok) = false ∧ file_ok = false))
      ∧ (c.set key value ttl now false true).2 = true := by
  constructor
  · unfold RedisCache.set
    cases h : c.use_redis && redis_ok <;> cases file_ok <;> simp [h]
  · unfold RedisCache.set
    simp

/-- C5, counterexample: `"ab"` has normalized (trimmed) length 2, below
the configured minimum `SEARCH_MIN_QUERY_LENGTH = 3`, yet `search_items`
does not reject it — the endpoint checks the hardcoded literal 2, not the
configured minimum. -/
theorem c5_counterexample :
    (pyStrip "ab").length < SEARCH_MIN_QUERY_LENGTH
      ∧ search_query_rejected "ab" = false := by
  decide

/-- C5, amended: `search_items` rejects a query with InvalidArgument
exactly when its trimmed length is below the hardcoded minimum of 2
(`settings.SEARCH_MIN_QUERY_LENGTH = 3` is not consulted):
`search("a")` fails while `search("ab")` and `search("abc")` do not. -/
theorem c5_min_length_is_two :
    search_query_rejected "a" = true
      ∧ search_query_rejected "ab" = false
      ∧ search_query_rejected "abc" = false
      ∧ (∀ q : String, (pyStrip q).length < 2 → search_query_rejected q = true)
      ∧ (∀ q : String, 2 ≤ (pyStrip q).length →
          search_query_rejected q = false) := by
  refine ⟨by decide, by decide, by decide, ?_, ?_⟩
  · intro q h
    simp [search_query_rejected, h]
  · intro q h
    have hq : q.length ≠ 0 := by
      intro h0
      cases q with
      | mk data =>
        have hdata : data = [] := by
          simpa [String.length] using h0
        subst hdata
        exact absurd h (by decide)
    simp [search_query_rejected, hq, Nat.not_lt.mpr h]

/-- C5 witness: a concrete query of trimmed length ≥ 2 is accepted. -/
theorem c5_witness :
    2 ≤ (pyStrip "abcd").length ∧ search_query_rejected "abcd" = false :=
  ⟨by decide, c5_min_length_is_two.2.2.2.2 "abcd" (by decide)⟩

/-- C6, counterexample: `"foo  bar"` and `"foo bar"` differ only in
internal whitespace, yet they derive different search cache keys —
normalization is `lower().strip()` only and does not collapse internal
whitespace. -/
theorem c6_counterexample :
    search_cache_key "foo  bar" ≠ search_cache_key "foo bar" := by
  decide

/-- C6, amended: the search cache key depends only on the normalized
query (lowercase + trim of leading/trailing whitespace), so two queries
differing only in letter case or leading/trailing whitespace collide on
the same cache key (e.g. `" Ripperdoc "` and `"ripperdoc"`), but internal
whitespace is preserved, so queries differing in internal whitespace map
to distinct keys. -/
theorem c6_search_key_normalization :
    (∀ q₁ q₂ : String, normalized_query q₁ = normalized_query q₂ →
        search_cache_key q₁ = search_cache_key q₂)
      ∧ search_cache_key " Ripperdoc " = search_cache_key "ripperdoc"
      ∧ search_cache_key "RIPPERDOC" = search_cache_key "ripperdoc"
      ∧ search_cache_key "foo  bar" ≠ search_cache_key "foo bar" := by
  refine ⟨?_, by decide, by decide, by decide⟩
  intro q₁ q₂ h
  simp [search_cache_key, search_results_key, h]

/-- C6 witness: two concrete queries with equal normalizations collide. -/
theorem c6_witness :
    normalized_query "AB " = normalized_query " ab"
      ∧ search_cache_key "AB " = search_cache_key " ab" :=
  ⟨by decide, c6_search_key_normalization.1 "AB " " ab" (by decide)⟩

/-- A `RedisCache` instance in the default configuration (`self.ttl =
settings.REDIS_TTL = 3600`), with the Redis tier enabled and both stores
empty. -/
def c3_cache : RedisCache Nat :=
  ⟨fun _ => none, fun _ => none, true, 3600⟩

/-- C3, counterexample: after `set("k", 42, ttl=1)` at `t = 0`, a
`get("k")` at `t = 2` — more than the given ttl of 1 second later — still
returns 42 (served by the durable tier, whose expiry check uses the
instance TTL of 3600 s, not the per-entry ttl), and the durable entry is
not deleted. -/
theorem c3_counterexample :
    (((c3_cache.set "k" 42 (some 1) 0 true true).1.get "k" 2 true).1
        = some 42)
      ∧ (((c3_cache.set "k" 42 (some 1) 0 true true).1.get "k" 2
          true).2.fileStore "k" = some (42, 0)) := by
  decide

/-- C3, amended: after `set(k, v, ttl=1)` an immediate `get(k)` returns
`v`; the per-entry ttl governs only the fast tier, while the durable tier
applies the instance TTL (`settings.REDIS_TTL`, 3600 s): once more than
1 second but at most 3600 s have elapsed, `get(k)` still returns `v` from
the durable tier; only once more than 3600 s have elapsed does `get(k)`
return absent, and that read deletes the expired durable entry as a side
effect. -/
theorem c3_ttl_semantics (α : Type) (c : RedisCache α) (key : String)
    (v : α) (t₀ now₂ now₃ : Nat) (httl : c.ttl = 3600)
    (h2a : t₀ + 1 < now₂) (h2b : now₂ ≤ t₀ + 3600)
    (h3 : t₀ + 3600 < now₃) :
    (((c.set key v (some 1) t₀ true true).1.get key t₀ true).1 = some v)
      ∧ (((c.set key v (some 1) t₀ true true).1.get key now₂ true).1
          = some v)
      ∧ (((c.set key v (some 1) t₀ true true).1.get key now₃ true).1
          = none)
      ∧ (((c.set key v (some 1) t₀ true true).1.get key now₃
          true).2.fileStore key = none) := by
  have e1 : ¬ (now₂ < t₀ + 1) := by omega
  have e2 : ¬ (now₂ - t₀ > 3600) := by omega
  have e3 : ¬ (now₃ < t₀ + 1) := by omega
  have e4 : now₃ - t₀ > 3600 := by omega
  have e5 : t₀ < t₀ + 1 := by omega
  cases hur : c.use_redis <;>
    refine ⟨?_, ?_, ?_, ?_⟩ <;>
      simp [RedisCache.set, RedisCache.get, hur, httl, e1, e2, e3, e4, e5]

/-- C3 witness: the amended TTL semantics at the concrete instants
0, 2 and 4000 for `set("k", 42, ttl=1)` at time 0. -/
theorem c3_witness :
    (c3_cache.ttl = 3600 ∧ 0 + 1 < 2 ∧ 2 ≤ 0 + 3600 ∧ 0 + 3600 < 4000)
      ∧ (((c3_cache.set "k" 42 (some 1) 0 true true).1.get "k" 0 true).1
          = some 42)
      ∧ (((c3_cache.set "k" 42 (some 1) 0 true true).1.get "k" 2 true).1
          = some 42)
      ∧ (((c3_cache.set "k" 42 (some 1) 0 true true).1.get "k" 4000
          true).1 = none)
      ∧ (((c3_cache.set "k" 42 (some 1) 0 true true).1.get "k" 4000
          true).2.fileStore "k" = none) :=
  ⟨⟨rfl, by decide, by decide, by decide⟩,
    (c3_ttl_semantics Nat c3_cache "k" 42 0 2 4000 rfl (by decide)
      (by decide) (by decide)).1,
    (c3_ttl_semantics Nat c3_cache "k" 42 0 2 4000 rfl (by decide)
      (by decide) (by decide)).2.1,
    (c3_ttl_semantics Nat c3_cache "k" 42 0 2 4000 rfl (by decide)
      (by decide) (by decide)).2.2.1,
    (c3_ttl_semantics Nat c3_cache "k" 42 0 2 4000 rfl (by decide)
      (by decide) (by decide)).2.2.2⟩

/-- C7: for a resolved snapshot of 25 items, `limit=10, offset=20` yields
the page holding exactly the last 5 items of the snapshot's insertion
order with `total = 25`; any `offset ≥ 25` yields an empty page with
`total = 25`; and on a cache hit `get_category_items` answers precisely
with this pagination of the cached snapshot. -/
theorem c7_pagination (α : Type) (env : WikiEnv α) (cat : String)
    (data : List (String × α)) (limit offset offB : Nat)
    (h25 : data.length = 25) (hoffB : 25 ≤ offB)
    (hmem : (CATEGORIES.map Prod.fst).contains cat = true)
    (hcache : env.cache ("category:" ++ cat) = some data) :
    paginate cat data 10 20
        = CatResult.page cat 25 ((data.map Prod.snd).drop 20)
      ∧ ((data.map Prod.snd).drop 20).length = 5
      ∧ paginate cat data 10 offB = CatResult.page cat 25 []
      ∧ (get_category_items env cat limit offset false).1
          = paginate cat data limit offset := by
  have hl : (data.map Prod.snd).length = 25 := by simp [h25]
  have hd : ((data.map Prod.snd).drop 20).length = 5 := by
    simp [List.length_drop, hl]
  have hne : data ≠ [] := by
    intro h
    rw [h] at h25
    simp at h25
  refine ⟨?_, hd, ?_, ?_⟩
  · rw [paginate]
    simp only [hl]
    rw [if_neg (by omega)]
    rw [List.take_of_length_le (by omega)]
  · rw [paginate]
    simp only [hl]
    rw [if_pos (by omega)]
  · rw [get_category_items]
    rw [if_neg (not_not_intro hmem)]
    simp [get_category_data, hcache, hne]

/-- Concrete 25-item snapshot for the C7 witness. -/
def c7_data : List (String × Nat) :=
  (List.range 25).map (fun i => (toString i, i))

/-- Environment whose cache holds `c7_data` for the weapons category. -/
def c7_env : WikiEnv Nat :=
  ⟨fun k => if k = "category:weapons" then some c7_data else none,
   fun _ => none⟩

/-- C7 witness: the pagination properties at a concrete 25-item
snapshot. -/
theorem c7_witness :
    (c7_data.length = 25 ∧ 25 ≤ 30
        ∧ (CATEGORIES.map Prod.fst).contains "weapons" = true
        ∧ c7_env.cache ("category:" ++ "weapons") = some c7_data)
      ∧ (paginate "weapons" c7_data 10 20
            = CatResult.page "weapons" 25 ((c7_data.map Prod.snd).drop 20)
          ∧ ((c7_data.map Prod.snd).drop 20).length = 5
          ∧ paginate "weapons" c7_data 10 30 = CatResult.page "weapons" 25 []
          ∧ (get_category_items c7_env "weapons" 10 20 false).1
              = paginate "weapons" c7_data 10 20) :=
  ⟨⟨by decide, by decide, by decide, by decide⟩,
    c7_pagination Nat c7_env "weapons" c7_data 10 20 30 (by decide)
      (by decide) (by decide) (by decide)⟩

/-- C8: for any category key outside the fixed configured category set,
`get_category_items` answers 404 with an empty effect trace — neither the
cache, nor the durable store, nor the scraping collaborator is
consulted. -/
theorem c8_unknown_category_404 (α : Type) (env : WikiEnv α)
    (category_name : String) (limit offset : Nat) (refresh : Bool)
    (h : (CATEGORIES.map Prod.fst).contains category_name = false) :
    get_category_items env category_name limit offset refresh
      = (CatResult.notFound, []) := by
  rw [get_category_items, if_pos (by rw [h]; exact Bool.false_ne_true)]

/-- C8 witness: the unknown key `"netrunners"` is rejected with 404 and
no effects. -/
theorem c8_witness :
    (CATEGORIES.map Prod.fst).contains "netrunners" = false
      ∧ get_category_items (α := Nat) ⟨fun _ => none, fun _ => none⟩
          "netrunners" 10 0 false = (CatResult.notFound, []) :=
  ⟨by decide,
    c8_unknown_category_404 Nat ⟨fun _ => none, fun _ => none⟩
      "netrunners" 10 0 false (by decide)⟩

/-- The category scan returns the record of the first category in list
order whose cached snapshot holds the title, independent of the categories
after it. -/
theorem scan_categories_first_match {α : Type}
    (cache : String → Option (List (String × α))) (title : String)
    (pre post : List (String × String)) (c : String × String) (r : α)
    (hpre : ∀ p ∈ pre, (get_category_data cache p.1).lookup title = none)
    (hc : (get_category_data cache c.1).lookup title = some r) :
    scan_categories cache title (pre ++ c :: post) = some r := by
  induction pre with
  | nil =>
    obtain ⟨ck, cn⟩ := c
    have hne : (get_category_data cache ck).isEmpty = false := by
      cases hcd : get_category_data cache ck with
      | nil => rw [hcd] at hc; simp at hc
      | cons a l => rfl
    simp only [List.nil_append, scan_categories, hne, Bool.false_eq_true,
      if_false]
    rw [hc]
  | cons p pre ih =>
    obtain ⟨pk, pn⟩ := p
    have hp : (get_category_data cache pk).lookup title = none :=
      hpre (pk, pn) (by simp)
    have ih' := ih (fun q hq => hpre q (List.mem_cons_of_mem _ hq))
    by_cases he : (get_category_data cache pk).isEmpty = true
    · simpa only [List.cons_append, scan_categories, he, if_true] using ih'
    · simp only [List.cons_append, scan_categories, he, if_false]
      rw [hp]
      exact ih'

/-- C9: when the title is absent from the per-item cache and some
category's cached snapshot holds it, `get_item_details` returns the record
from the first matching category in the fixed configuration order of
`CATEGORIES` — regardless of what any later category holds — and performs
exactly one per-item cache write, promoting that record under the
title. -/
theorem c9_first_category_wins (α : Type) (itemCache : String → Option α)
    (cache : String → Option (List (String × α)))
    (fetch : String → Option α) (item_title : String)
    (pre post : List (String × String)) (c : String × String) (r : α)
    (hmiss : itemCache item_title = none)
    (hsplit : CATEGORIES = pre ++ c :: post)
    (hpre : ∀ p ∈ pre,
      (get_category_data cache p.1).lookup item_title = none)
    (hc : (get_category_data cache c.1).lookup item_title = some r) :
    get_item_details itemCache cache fetch item_title
      = (some r, [(item_title, r)]) := by
  rw [get_item_details, hmiss, hsplit,
    scan_categories_first_match cache item_title pre post c r hpre hc]

/-- Cached snapshots for the C9 witness: the characters snapshot misses
the title, the vehicles snapshot holds record 1 for it, and the later
weapons snapshot holds a different record 2 for the same title. -/
def c9_cache : String → Option (List (String × Nat)) := fun k =>
  if k = "category:characters" then some [("Jackie", 9)]
  else if k = "category:vehicles" then some [("Katana", 1)]
  else if k = "category:weapons" then some [("Katana", 2)]
  else none

/-- C9 witness: with `"Katana"` uncached per-item, cached under vehicles
(record 1) and under the later weapons category with a different record 2,
the lookup returns the vehicles record and promotes exactly it. -/
theorem c9_witness :
    ((fun _ : String => (none : Option Nat)) "Katana" = none
        ∧ CATEGORIES
            = [("characters", "Cyberpunk 2077 Characters")]
              ++ ("vehicles", "Cyberpunk 2077 Vehicles")
                :: [("weapons", "Weapons in Cyberpunk 2077"),
                    ("locations", "Cyberpunk 2077 Locations"),
                    ("perks", "Perks in Cyberpunk 2077"),
                    ("items", "Items in Cyberpunk 2077")]
        ∧ (∀ p ∈ [("characters", "Cyberpunk 2077 Characters")],
            (get_category_data c9_cache p.1).lookup "Katana" = none)
        ∧ (get_category_data c9_cache "vehicles").lookup "Katana" = some 1
        ∧ (get_category_data c9_cache "weapons").lookup "Katana" = some 2)
      ∧ get_item_details (fun _ => none) c9_cache (fun _ => none) "Katana"
          = (some 1, [("Katana", 1)]) :=
  ⟨⟨rfl, by decide, by decide, by decide, by decide⟩,
    c9_first_category_wins Nat (fun _ => none) c9_cache (fun _ => none)
      "Katana" [("characters", "Cyberpunk 2077 Characters")]
      [("weapons", "Weapons in Cyberpunk 2077"),
       ("locations", "Cyberpunk 2077 Locations"),
       ("perks", "Perks in Cyberpunk 2077"),
       ("items", "Items in Cyberpunk 2077")]
      ("vehicles", "Cyberpunk 2077 Vehicles") 1 rfl (by decide)
      (by decide) (by decide)⟩

/-- C10: at the public cache interface an entry whose cached value is
empty is indistinguishable from an absent entry — each typed getter
returns the empty container exactly when the underlying tiered read gives
nothing or a cached empty value — and consequently a category whose cached
snapshot has zero items is treated by `get_category_items` as a miss: it
schedules a background refresh, reads the durable snapshot, serves the
durable data when non-empty, and answers 202 Pending when the durable
snapshot is empty or missing, never serving the cached empty snapshot as a
hit. -/
theorem c10_empty_equals_absent (α : Type) :
    (∀ (raw : String → Option (List (String × α))) (k : String),
        get_category_data raw k = []
          ↔ (raw ("category:" ++ k) = none
              ∨ raw ("category:" ++ k) = some []))
      ∧ (∀ (raw : String → Option (List (String × α))) (cat item : String),
        get_item_data raw cat item = []
          ↔ (raw ("item:" ++ cat ++ ":" ++ item) = none
              ∨ raw ("item:" ++ cat ++ ":" ++ item) = some []))
      ∧ (∀ raw : String → Option (List String),
        get_all_categories raw = []
          ↔ (raw "all_categories" = none ∨ raw "all_categories" = some []))
      ∧ (∀ (raw : String → Option (List α)) (q : String),
        get_search_results raw q = []
          ↔ (raw ("search:" ++ q) = none ∨ raw ("search:" ++ q) = some []))
      ∧ (∀ (env : WikiEnv α) (cat : String) (limit offset : Nat),
        (CATEGORIES.map Prod.fst).contains cat = true →
        env.cache ("category:" ++ cat) = some [] →
          (get_category_items env cat limit offset false).2
              = [CacheEffect.cacheRead ("category:" ++ cat),
                 CacheEffect.scheduleScrape cat, CacheEffect.diskRead cat]
            ∧ (∀ d, env.disk cat = some d → d ≠ [] →
                (get_category_items env cat limit offset false).1
                  = paginate cat d limit offset)
            ∧ ((env.disk cat).getD [] = [] →
                (get_category_items env cat limit offset false).1
                  = CatResult.pending)) := by
  refine ⟨?_, ?_, ?_, ?_, ?_⟩
  · intro raw k
    unfold get_category_data
    cases raw ("category:" ++ k) <;> simp
  · intro raw cat item
    unfold get_item_data
    cases raw ("item:" ++ cat ++ ":" ++ item) <;> simp
  · intro raw
    unfold get_all_categories
    cases raw "all_categories" <;> simp
  · intro raw q
    unfold get_search_results
    cases raw ("search:" ++ q) <;> simp
  · intro env cat limit offset hmem hcache
    rw [get_category_items, if_neg (not_not_intro hmem)]
    refine ⟨?_, ?_, ?_⟩
    · cases hdisk : ((env.disk cat).getD []).isEmpty <;>
        simp [get_category_data, hcache, hdisk]
    · intro d hd hdne
      simp [get_category_data, hcache, hd, hdne]
    · intro hd
      simp [get_category_data, hcache, hd]

/-- Environment for the C10 witness: the weapons category is cached with
an empty snapshot while its durable snapshot holds one item. -/
def c10_env : WikiEnv Nat :=
  ⟨fun k => if k = "category:weapons" then some [] else none,
   fun c => if c = "weapons" then some [("Katana", 7)] else none⟩

/-- C10 witness: a cached empty weapons snapshot is treated as a miss —
scrape scheduled, durable snapshot read and served. -/
theorem c10_witness :
    ((CATEGORIES.map Prod.fst).contains "weapons" = true
        ∧ c10_env.cache ("category:" ++ "weapons") = some []
        ∧ c10_env.disk "weapons" = some [("Katana", 7)]
        ∧ ([("Katana", 7)] : List (String × Nat)) ≠ [])
      ∧ (get_category_items c10_env "weapons" 10 0 false).2
          = [CacheEffect.cacheRead ("category:" ++ "weapons"),
             CacheEffect.scheduleScrape "weapons",
             CacheEffect.diskRead "weapons"]
      ∧ (get_category_items c10_env "weapons" 10 0 false).1
          = paginate "weapons" [("Katana", 7)] 10 0 :=
  ⟨⟨by decide, by decide, by decide, by decide⟩,
    ((c10_empty_equals_absent Nat).2.2.2.2 c10_env "weapons" 10 0
      (by decide) (by decide)).1,
    ((c10_empty_equals_absent Nat).2.2.2.2 c10_env "weapons" 10 0
      (by decide) (by decide)).2.1 [("Katana", 7)] (by decide)
      (by decide)⟩
